import Mathlib

/-!
Verification development for the bitmap-to-gcode conversion server.

The Go sources are shallowly embedded:
* `srv/server.go` — the job pipeline (`processJob`), the vector post-processing
  helpers (`scaleToFit`, `filterWhitePaths`, `isNearWhite`, `getSVGDimensions`)
  and the Gemini API client (`callGeminiAPI`).
* the AI image cache file (`AIImageCache`: `hashString`, `MakeCacheKey`,
  `Lookup`, `Store`, `migrateOldSchema`, `DefaultAIPrompt`).

Machine `float64` arithmetic is modelled with exact rationals (`ℚ`);
`int64`/`uint32` arithmetic with `Int`/`Nat` (reduced `% 2^32` where the Go
code relies on 32-bit wrap-around, i.e. inside SHA-256).  External
collaborators (filesystem, SQLite, the autotrace/svg2gcode processes, the
Gemini HTTP service) are modelled as explicit inputs (`Env`), and the mutable
job/cache state as explicit state passing.
-/

/-! ### SHA-256 over `Nat` (crypto/sha256), used by `hashString`/`HashFile` -/

/-- 32-bit right rotation, on `Nat` reduced mod `2^32`. -/
def rotr32 (k n : Nat) : Nat :=
  ((n >>> k) ||| (n <<< (32 - k))) % 4294967296

/-- Addition mod `2^32`. -/
def add32 (a b : Nat) : Nat := (a + b) % 4294967296

/-- The SHA-256 round constants. -/
def shaK : List Nat :=
  [1116352408, 1899447441, 3049323471, 3921009573, 961987163,
   1508970993, 2453635748, 2870763221, 3624381080, 310598401,
   607225278, 1426881987, 1925078388, 2162078206, 2614888103,
   3248222580, 3835390401, 4022224774, 264347078, 604807628,
   770255983, 1249150122, 1555081692, 1996064986, 2554220882,
   2821834349, 2952996808, 3210313671, 3336571891, 3584528711,
   113926993, 338241895, 666307205, 773529912, 1294757372,
   1396182291, 1695183700, 1986661051, 2177026350, 2456956037,
   2730485921, 2820302411, 3259730800, 3345764771, 3516065817,
   3600352804, 4094571909, 275423344, 430227734, 506948616,
   659060556, 883997877, 958139571, 1322822218, 1537002063,
   1747873779, 1955562222, 2024104815, 2227730452, 2361852424,
   2428436474, 2756734187, 3204031479, 3329325298]

/-- The SHA-256 initial hash state. -/
def shaH0 : List Nat :=
  [1779033703, 3144134277, 1013904242, 2773480762,
   1359893119, 2600822924, 528734635, 1541459225]

/-- Fuel-driven 64-byte chunking (structural recursion so that proofs can
evaluate it; the fuel `l.length` always suffices since every step consumes at
least one element). -/
def chunksGo : Nat → List Nat → List (List Nat)
  | 0, _ => []
  | _ + 1, [] => []
  | fuel + 1, x :: xs => (x :: xs).take 64 :: chunksGo fuel ((x :: xs).drop 64)

/-- Group a byte list into chunks of 64 (the padded message is always a
multiple of 64 bytes long). -/
def chunks64 (l : List Nat) : List (List Nat) := chunksGo l.length l

/-- Big-endian 4-byte groups to 32-bit words. -/
def bytesToWords : List Nat → List Nat
  | a :: b :: c :: d :: rest =>
      (a * 16777216 + b * 65536 + c * 256 + d) :: bytesToWords rest
  | _ => []

/-- SHA-256 message-schedule extension step values. -/
def shaSigma0 (x : Nat) : Nat := (rotr32 7 x) ^^^ (rotr32 18 x) ^^^ (x >>> 3)

/-- Second small sigma. -/
def shaSigma1 (x : Nat) : Nat := (rotr32 17 x) ^^^ (rotr32 19 x) ^^^ (x >>> 10)

/-- Extend a 16-word block to the full 64-word schedule. -/
def extendSchedule : Nat → List Nat → List Nat
  | 0, w => w
  | n + 1, w =>
      let i := w.length
      let v := add32 (add32 (shaSigma1 (w.getD (i - 2) 0)) (w.getD (i - 7) 0))
        (add32 (shaSigma0 (w.getD (i - 15) 0)) (w.getD (i - 16) 0))
      extendSchedule n (w ++ [v])

/-- One SHA-256 compression round; state is `(a,b,c,d,e,f,g,h)`. -/
def shaRound (st : Nat × Nat × Nat × Nat × Nat × Nat × Nat × Nat)
    (kw : Nat × Nat) : Nat × Nat × Nat × Nat × Nat × Nat × Nat × Nat :=
  let (a, b, c, d, e, f, g, h) := st
  let s1 := (rotr32 6 e) ^^^ (rotr32 11 e) ^^^ (rotr32 25 e)
  let ch := (e &&& f) ^^^ ((4294967295 - e) &&& g)
  let t1 := add32 (add32 (add32 h s1) (add32 ch kw.1)) kw.2
  let s0 := (rotr32 2 a) ^^^ (rotr32 13 a) ^^^ (rotr32 22 a)
  let mj := (a &&& b) ^^^ (a &&& c) ^^^ (b &&& c)
  let t2 := add32 s0 mj
  (add32 t1 t2, a, b, c, add32 d t1, e, f, g)

/-- Compress one 64-byte block into the running hash state. -/
def shaCompress (h : List Nat) (block : List Nat) : List Nat :=
  let w := extendSchedule 48 (bytesToWords block)
  let a0 := h.getD 0 0
  let b0 := h.getD 1 0
  let c0 := h.getD 2 0
  let d0 := h.getD 3 0
  let e0 := h.getD 4 0
  let f0 := h.getD 5 0
  let g0 := h.getD 6 0
  let h0 := h.getD 7 0
  let (a, b, c, d, e, f, g, hh) :=
    (shaK.zip w).foldl shaRound (a0, b0, c0, d0, e0, f0, g0, h0)
  [add32 a0 a, add32 b0 b, add32 c0 c, add32 d0 d,
   add32 e0 e, add32 f0 f, add32 g0 g, add32 h0 hh]

/-- SHA-256 padding: append `0x80`, zeros, then the 64-bit big-endian bit
length, reaching a multiple of 64 bytes. -/
def shaPad (msg : List Nat) : List Nat :=
  let len := msg.length
  let bitLen := 8 * len
  let zeros := (119 - len % 64) % 64
  msg ++ 128 :: List.replicate zeros 0 ++
    [bitLen >>> 56 % 256, bitLen >>> 48 % 256, bitLen >>> 40 % 256,
     bitLen >>> 32 % 256, bitLen >>> 24 % 256, bitLen >>> 16 % 256,
     bitLen >>> 8 % 256, bitLen % 256]

/-- Word to 4 big-endian bytes. -/
def wordBytes (w : Nat) : List Nat :=
  [w >>> 24 % 256, w >>> 16 % 256, w >>> 8 % 256, w % 256]

/-- SHA-256 of a byte list, as 32 bytes. -/
def sha256 (msg : List Nat) : List Nat :=
  ((chunks64 (shaPad msg)).foldl shaCompress shaH0).foldr
    (fun w acc => wordBytes w ++ acc) []

/-- UTF-8 encoding of one character (Go strings are UTF-8 byte sequences). -/
def utf8Char (c : Char) : List Nat :=
  let n := c.toNat
  if n < 128 then [n]
  else if n < 2048 then [192 ||| (n >>> 6), 128 ||| (n &&& 63)]
  else if n < 65536 then
    [224 ||| (n >>> 12), 128 ||| ((n >>> 6) &&& 63), 128 ||| (n &&& 63)]
  else
    [240 ||| (n >>> 18), 128 ||| ((n >>> 12) &&& 63),
     128 ||| ((n >>> 6) &&& 63), 128 ||| (n &&& 63)]

/-- UTF-8 bytes of a string, as Go `[]byte(s)`. -/
def utf8Bytes (s : String) : List Nat :=
  s.data.foldr (fun c acc => utf8Char c ++ acc) []

/-- Lower-case hex digit for a value `< 16`. -/
def hexDigit (n : Nat) : Char :=
  if n < 10 then Char.ofNat (48 + n) else Char.ofNat (87 + n)

/-- Lower-case hex string of a byte list (Go `hex.EncodeToString`). -/
def hexEncode (bs : List Nat) : String :=
  String.mk (bs.foldr (fun b acc => hexDigit (b / 16) :: hexDigit (b % 16) :: acc) [])

/-- Go: `hashString` — SHA-256 of a string, hex-encoded, first 16 characters. -/
def hashString (s : String) : String :=
  (hexEncode (sha256 (utf8Bytes s))).take 16

/-- Go: `MakeCacheKey` — composite cache key from input hash and prompt. -/
def MakeCacheKey (inputHash prompt : String) : String :=
  inputHash ++ ":" ++ hashString prompt

/-- A single-quote character, kept out of source literals. -/
def quoteChar : String := String.singleton (Char.ofNat 39)

/-- Go: `DefaultAIPrompt` (contains an apostrophe, hence the splice). -/
def DefaultAIPrompt : String :=
  "Reduce this image to a two color line-art image suitable for use in a " ++
  "child" ++ quoteChar ++ "s coloring book. The lines should be black and the background " ++
  "white. The image will be reproduced by an X-Y plotter, so the final " ++
  "image should have only lines (no solid/filled areas)."

/-! ### Executable rational arithmetic

Mathlib marks `Rat.mul`, `Rat.add`, `Rat.inv` irreducible, which blocks
`decide`-style evaluation; the embedding therefore computes with the
reducible constructors `mkRat`/`Rat.divInt` and bridges to the field
operations through `qmul_eq`/`qdiv_eq`. -/

/-- Exact rational multiplication, reducibly. -/
def qmul (a b : ℚ) : ℚ := Rat.divInt (a.num * b.num) (a.den * b.den)

/-- Exact rational division, reducibly (`x / 0 = 0`, as in Lean). -/
def qdiv (a b : ℚ) : ℚ := Rat.divInt (a.num * b.den) (a.den * b.num)

/-! ### Result cache model (the `AIImageCache` file)

The SQLite index is a list of rows (primary key `cache_key`; `QueryRow`
returns the first match, `INSERT OR REPLACE` deletes conflicting rows and
inserts, `DELETE WHERE` filters).  The blob directory is the list of file
names present.  `created_at` is a SQLite default and is not tracked.
Filesystem and SQL write failures are injected as `Except String Unit`
arguments; `filepath.Join dir name` is modelled as `dir ++ "/" ++ name`
(cache file names never contain separators). -/

/-- One row of the `ai_image_cache` table (current schema). -/
structure CacheRow where
  cache_key : String
  input_hash : String
  prompt : String
  output_filename : String
  mime_type : String
deriving DecidableEq

/-- The persistent cache: index rows plus blob files on disk. -/
structure CacheState where
  db : List CacheRow
  files : List String
deriving DecidableEq

/-- Go: `CachedResult`. -/
structure CachedResult where
  Filename : String
  MimeType : String
  FullPath : String
  Prompt : String
deriving DecidableEq

/-- Go: `Lookup` — query by composite key; if the referenced blob file is
missing, delete the stale row and report absent. -/
def Lookup (cacheDir : String) (c : CacheState) (inputHash prompt : String) :
    CacheState × Option CachedResult :=
  let cacheKey := MakeCacheKey inputHash prompt
  match c.db.find? (fun r => r.cache_key == cacheKey) with
  | none => (c, none)
  | some row =>
    let fullPath := cacheDir ++ "/" ++ row.output_filename
    if row.output_filename ∈ c.files then
      (c, some ⟨row.output_filename, row.mime_type, fullPath, row.prompt⟩)
    else
      ({ c with db := c.db.filter (fun r => !(r.cache_key == cacheKey)) }, none)

/-- Extension chosen from the MIME type in `Store` (png default). -/
def cacheExt (mimeType : String) : String :=
  if mimeType == "image/jpeg" then ".jpg"
  else if mimeType == "image/webp" then ".webp"
  else if mimeType == "image/gif" then ".gif"
  else ".png"

/-- Blob file name: fingerprint prefix + nanosecond timestamp + extension. -/
def cacheFilename (inputHash : String) (now : Nat) (mimeType : String) : String :=
  inputHash.take 16 ++ "_" ++ toString now ++ cacheExt mimeType

/-- `os.WriteFile` creates or truncates: the name is present afterwards. -/
def insertFile (files : List String) (f : String) : List String :=
  if f ∈ files then files else f :: files

/-- Go: `Store` — write the blob, then upsert the index row; on index-write
failure remove the just-written blob and surface the error. -/
def Store (cacheDir : String) (c : CacheState) (now : Nat)
    (inputHash prompt : String) (imageData : List Nat) (mimeType : String)
    (writeRes insertRes : Except String Unit) :
    CacheState × Except String CachedResult :=
  let cacheKey := MakeCacheKey inputHash prompt
  let filename := cacheFilename inputHash now mimeType
  let fullPath := cacheDir ++ "/" ++ filename
  match writeRes with
  | .error e => (c, .error ("write cache file: " ++ e))
  | .ok _ =>
    let c1 : CacheState := { c with files := insertFile c.files filename }
    match insertRes with
    | .error e =>
        ({ c1 with files := c1.files.erase filename },
         .error ("insert cache record: " ++ e))
    | .ok _ =>
        ({ c1 with db := ⟨cacheKey, inputHash, prompt, filename, mimeType⟩ ::
            c1.db.filter (fun r => !(r.cache_key == cacheKey)) },
         .ok ⟨filename, mimeType, fullPath, prompt⟩)

/-- One row of the legacy-schema table (`input_hash` was the primary key and
there was no `prompt` column). -/
structure LegacyRow where
  input_hash : String
  output_filename : String
  mime_type : String
deriving DecidableEq

/-- The `ai_image_cache` table is in the legacy or the current schema. -/
inductive DBTable where
  | legacy (rows : List LegacyRow)
  | current (rows : List CacheRow)
deriving DecidableEq

/-- The database: the main table plus the transient `ai_image_cache_old`
table (present only mid-migration). -/
structure SchemaState where
  main : DBTable
  old : Option (List LegacyRow)
deriving DecidableEq

/-- Go: `migrateOldSchema` — detect the legacy schema via the primary-key
pragma; if legacy: rename to `ai_image_cache_old`, create the current-schema
table, copy every row forward with the fixed default prompt and its composite
key, then drop the old table. -/
def migrateOldSchema (s : SchemaState) : SchemaState :=
  match s.main with
  | .current _ => s
  | .legacy rows =>
    { main := .current (rows.map (fun r =>
        ⟨r.input_hash ++ ":" ++ hashString DefaultAIPrompt,
         r.input_hash, DefaultAIPrompt, r.output_filename, r.mime_type⟩)),
      old := none }

/-! ### Vector post-processor (`server.go`: `isNearWhite`, `filterWhitePaths`,
`getSVGDimensions`, `scaleToFit`)

The SVG file produced by autotrace is modelled structurally: its root-element
`width`/`height` attribute captures (the `([0-9.]+)` regex groups) and the
sequence of elements.  A `path` item stands for one self-closing
`<path ... style="..." .../>` element that the outer regex of
`filterWhitePaths` scans, carrying its style-attribute text; `other` stands
for any other content, which the regex leaves untouched. -/

/-- Hex digits as accepted by the regex class `[0-9a-fA-F]` and by Go
`strconv.ParseInt` base 16. -/
def isHexChar (c : Char) : Bool :=
  decide (('0' ≤ c ∧ c ≤ '9') ∨ ('a' ≤ c ∧ c ≤ 'f') ∨ ('A' ≤ c ∧ c ≤ 'F'))

/-- Value of a hex digit (0 for non-hex characters). -/
def hexCharVal (c : Char) : Nat :=
  if '0' ≤ c ∧ c ≤ '9' then c.toNat - 48
  else if 'a' ≤ c ∧ c ≤ 'f' then c.toNat - 97 + 10
  else if 'A' ≤ c ∧ c ≤ 'F' then c.toNat - 65 + 10
  else 0

/-- Unsigned base-16 accumulation. -/
def hexValNat (cs : List Char) : Nat :=
  cs.foldl (fun acc c => 16 * acc + hexCharVal c) 0

/-- All characters are hex digits and there is at least one. -/
def validHexDigits (cs : List Char) : Bool :=
  !cs.isEmpty && cs.all isHexChar

/-- Go: `strconv.ParseInt(s, 16, 64)` with the error discarded (the caller
uses `r, _ := ...`), so a malformed string yields 0.  An optional leading
sign is accepted; 2-character inputs cannot overflow `int64`. -/
def parseIntGo16 (s : String) : Int :=
  match s.data with
  | [] => 0
  | c :: rest =>
    if c = '+' then (if validHexDigits rest then (hexValNat rest : Int) else 0)
    else if c = '-' then (if validHexDigits rest then -(hexValNat rest : Int) else 0)
    else (if validHexDigits (c :: rest) then (hexValNat (c :: rest) : Int) else 0)

/-- Go: `isNearWhite` — length must be 6 (the argument is ASCII hex in every
reachable call, so byte length equals character length); all three channels
strictly above the threshold 240. -/
def isNearWhite (hex : String) : Bool :=
  match hex.data with
  | [c1, c2, c3, c4, c5, c6] =>
    let r := parseIntGo16 (String.mk [c1, c2])
    let g := parseIntGo16 (String.mk [c3, c4])
    let b := parseIntGo16 (String.mk [c5, c6])
    decide ((240 : Int) < r) && decide ((240 : Int) < g) && decide ((240 : Int) < b)
  | _ => false

/-- The literal `stroke:#` the regexes look for. -/
def strokeLit : List Char := "stroke:#".data

/-- Try to match `stroke:#([0-9a-fA-F]{6})` at the head of the list. -/
def matchStrokeAt (l : List Char) : Option (List Char) :=
  if strokeLit.isPrefixOf l then
    let hex := (l.drop 8).take 6
    if hex.length = 6 ∧ hex.all isHexChar then some hex else none
  else none

/-- Leftmost match of `stroke:#([0-9a-fA-F]{6})`, as Go `FindSubmatch`. -/
def findStrokeAux : List Char → Option (List Char)
  | [] => none
  | c :: cs =>
    match matchStrokeAt (c :: cs) with
    | some h => some h
    | none => findStrokeAux cs

/-- First stroke-color capture in a style-attribute text. -/
def findStroke (style : String) : Option (List Char) :=
  findStrokeAux style.data

/-- An element of the traced SVG document, as scanned by the
`filterWhitePaths` regex. -/
inductive SVGItem where
  | path (style : String)
  | other (content : String)
deriving DecidableEq

/-- Whether `ReplaceAllFunc` erases this element: a path whose style matches
the stroke pattern and whose first captured color `isNearWhite`. -/
def elemRemoved : SVGItem → Bool
  | .path style =>
    match findStroke style with
    | some hex => isNearWhite (String.mk hex)
    | none => false
  | .other _ => false

/-- Go: `filterWhitePaths` — remove white/near-white stroked paths, keep
everything else unchanged and in order. -/
def filterWhitePathsItems (items : List SVGItem) : List SVGItem :=
  items.filter (fun it => !(elemRemoved it))

/-- Spec-side removal predicate, written from the claim: the stroke color
parses as six hex digits whose three channels are each strictly above 240. -/
def specRemoves : SVGItem → Bool
  | .path style =>
    match findStroke style with
    | some [a, b, c, d, e, f] =>
      decide (240 < 16 * hexCharVal a + hexCharVal b) &&
      decide (240 < 16 * hexCharVal c + hexCharVal d) &&
      decide (240 < 16 * hexCharVal e + hexCharVal f)
    | _ => false
  | .other _ => false

/-- Digits to a natural number, base 10. -/
def digitsToNat (cs : List Char) : Nat :=
  cs.foldl (fun acc c => 10 * acc + (c.toNat - 48)) 0

/-- Go: `strconv.ParseFloat` restricted to the strings the dimension regex
can capture (`[0-9.]+`), with the error discarded so a malformed string
yields 0.  Valid inputs have at least one digit and at most one dot; the
value is exact (the Go code stores a `float64`; positivity and the zero /
non-zero distinction, which are what the pipeline depends on, agree). -/
def parseFloatGo (s : String) : ℚ :=
  let cs := s.data
  if cs ≠ [] ∧ (∀ c ∈ cs, c.isDigit ∨ c = '.') ∧ cs.count '.' ≤ 1 ∧ cs.any Char.isDigit then
    let intPart := cs.takeWhile (fun c => c ≠ '.')
    let fracPart := (cs.dropWhile (fun c => c ≠ '.')).drop 1
    mkRat (digitsToNat intPart * 10 ^ fracPart.length + digitsToNat fracPart)
      (10 ^ fracPart.length)
  else 0

/-- The traced SVG document: root dimension attribute captures plus content
elements. `none` for an attribute means the corresponding regex did not
match. -/
structure SVGDoc where
  widthAttr : Option String
  heightAttr : Option String
  items : List SVGItem
deriving DecidableEq

/-- Go: `getSVGDimensions` — an unreadable file gives the (100, 100)
default; otherwise parse each captured attribute (0 when absent or
unparsable) and replace a zero result by 100. -/
def getSVGDimensions (file : Option SVGDoc) : ℚ × ℚ :=
  match file with
  | none => (100, 100)
  | some d =>
    let width := match d.widthAttr with
      | some s => parseFloatGo s
      | none => 0
    let height := match d.heightAttr with
      | some s => parseFloatGo s
      | none => 0
    (if width = 0 then 100 else width, if height = 0 then 100 else height)

/-- Go: `scaleToFit` — fit `(srcW, srcH)` into `(maxW, maxH)` preserving the
aspect ratio; non-positive source dimensions return the max box unscaled. -/
def scaleToFit (srcW srcH maxW maxH : ℚ) : ℚ × ℚ :=
  if srcW ≤ 0 ∨ srcH ≤ 0 then (maxW, maxH)
  else
    let scaleW := qdiv maxW srcW
    let scaleH := qdiv maxH srcH
    let scale := if scaleH < scaleW then scaleH else scaleW
    (qmul srcW scale, qmul srcH scale)

/-- Left-pad with zeros to the requested width. -/
def zeroPad (p : Nat) (s : String) : String :=
  String.mk (List.replicate (p - s.length) '0') ++ s

/-- Fixed-point decimal rendering of a rational, modelling Go
`fmt.Sprintf("%.Nf", x)`: `scaled` is the floor of `q * 10^prec + 1/2`
(round to nearest; on the values arising in this development the scaled
argument is exact, so no tie-breaking is exercised). -/
def fmtFixed (prec : Nat) (q : ℚ) : String :=
  let p10 : Int := ((10 ^ prec : Nat) : Int)
  let scaled : Int := Int.fdiv (2 * q.num * p10 + (q.den : Int)) (2 * (q.den : Int))
  let sign := if scaled < 0 then "-" else ""
  let n := scaled.natAbs
  if prec = 0 then sign ++ toString n
  else sign ++ toString (n / 10 ^ prec) ++ "." ++ zeroPad prec (toString (n % 10 ^ prec))

/-! ### Job pipeline model (`server.go`: `processJob`, `callGeminiAPI`)

A job diagnostic log is the ordered list of `WriteString` chunks of the
`strings.Builder`; the full log text is their concatenation.  External
collaborators are injected through `Env`: the input-file hash, the Gemini
network exchange, the cache/fallback write outcomes, the two process
invocations and the vector document the tracer writes. -/

/-- Outcome of one external process run: optional failure text (the `%v` of
`cmd.Run`'s error) and the captured output streams. -/
structure ProcOut where
  exitErr : Option String
  stdout : String
  stderr : String

/-- One part of a Gemini response candidate: optional inline image data.
The pair is the declared MIME type and the base64-decode outcome of the
payload (`.error` carries the decode error text). -/
structure GPart where
  inlineData : Option (String × Except String (List Nat))

/-- A received Gemini HTTP response. `errMsg = some m` means the error-shape
unmarshal of the body succeeded with message `m`; `parseErr` is a failure of
the main response unmarshal. -/
structure GeminiResp where
  status : Nat
  errMsg : Option String
  parseErr : Option String
  candidates : List (List GPart)

/-- The network side of a Gemini call. -/
inductive GeminiNet where
  | netErr (msg : String)
  | readErr (msg : String)
  | resp (r : GeminiResp)

/-- Whether the exchange is a transport failure of `client.Do` (as opposed
to a received response or a response-body read failure). -/
def GeminiNet.isNetErr : GeminiNet → Bool
  | .netErr _ => true
  | _ => false

/-- External inputs of `callGeminiAPI`: the input-image read outcome and the
network exchange. -/
structure GeminiEnv where
  inputRead : Except String Unit
  net : GeminiNet

/-- The fixed URL prefix; the caller-supplied key is appended. -/
def geminiURLBase : String :=
  "https://generativelanguage.googleapis.com/v1beta/models/gemini-2.0-flash-exp:generateContent?key="

/-- Whether a string contains an ASCII control byte (`< 0x20` or `0x7f`),
the check `net/url`'s `parse` applies to the pre-fragment part of a URL;
characters at or above `0x80` encode to bytes at or above `0x80`, so
checking characters is equivalent to Go's byte-level check. -/
def containsCtlChar (s : String) : Bool :=
  s.data.any (fun c => decide (c.toNat < 32) || decide (c.toNat = 127))

/-- Go `%q` of the URL inside a `url.Error` (modelled without escaping of
special characters; the claims only depend on the credential text being
embedded, and the concrete runs below use printable URLs on which `%q`
performs no escaping). -/
def goQuote (s : String) : String := "\"" ++ s ++ "\""

/-- First invalid percent-escape in a fragment, as `net/url`'s `unescape`
finds it: a `%` must be followed by two hex digits, a valid escape is
consumed whole, and the reported snippet is the `%` plus up to two following
characters (the text of `url.EscapeError`). -/
def badEscapeIn : List Char → Option (List Char)
  | [] => none
  | c :: rest =>
    if c = '%' then
      match rest with
      | a :: b :: rest2 =>
        if isHexChar a ∧ isHexChar b then badEscapeIn rest2
        else some ['%', a, b]
      | [a] => some ['%', a]
      | [] => some ['%']
    else badEscapeIn rest

/-- Go: the outcome of `http.NewRequest`'s `url.Parse` on the request URL
(`some msg` is the failure text).  `Parse` first splits at the first `#`;
the pre-fragment part is rejected if it contains a control byte (the
`url.Error` then quotes only that part), and the fragment is rejected on an
invalid percent-escape (the `url.Error` then quotes the whole URL).  Control
bytes after the `#` are accepted, and percent-escapes in the query are never
validated by `Parse`. -/
def requestBuildErr (url : String) : Option String :=
  let pre := String.mk (url.data.takeWhile (fun c => c ≠ '#'))
  let frag := (url.data.dropWhile (fun c => c ≠ '#')).drop 1
  if containsCtlChar pre then
    some ("parse " ++ goQuote pre ++ ": net/url: invalid control character in URL")
  else
    match badEscapeIn frag with
    | some e =>
      some ("parse " ++ goQuote url ++ ": invalid URL escape " ++ goQuote (String.mk e))
    | none => none

/-- First part carrying inline data, scanning parts within a candidate. -/
def firstInline : List GPart → Option (String × Except String (List Nat))
  | [] => none
  | p :: ps =>
    match p.inlineData with
    | some d => some d
    | none => firstInline ps

/-- First inline-data part across all candidates (the nested loops). -/
def findImagePart : List (List GPart) → Option (String × Except String (List Nat))
  | [] => none
  | parts :: rest =>
    match firstInline parts with
    | some d => some d
    | none => findImagePart rest

/-- Go: `callGeminiAPI` — returns whether the HTTP request was actually sent
(`client.Do` reached) and either the image bytes with their MIME type or an
error.  The credential is used only to build the request URL, but the URL is
echoed into error text by two failure channels: a `NewRequest` parse failure
(`requestBuildErr`, before any network traffic), and a `client.Do` transport
failure, whose `url.Error` renders as `Post "<full URL>": <cause>` — with
the `?key=` credential inside (the serialized URL reproduces the query
verbatim).  Body-read failures and received responses carry no URL. -/
def callGeminiAPI (g : GeminiEnv) (apiKey : String) :
    Bool × Except String (List Nat × String) :=
  match g.inputRead with
  | .error e => (false, .error ("read input image: " ++ e))
  | .ok _ =>
    let url := geminiURLBase ++ apiKey
    match requestBuildErr url with
    | some e => (false, .error ("create request: " ++ e))
    | none =>
      (true,
        match g.net with
        | .netErr m =>
          .error ("API request failed: Post " ++ goQuote url ++ ": " ++ m)
        | .readErr m => .error ("read response: " ++ m)
        | .resp r =>
          if r.status ≠ 200 then
            match r.errMsg with
            | some m =>
              if m ≠ "" then .error ("API error: " ++ m)
              else .error ("API error (status " ++ toString r.status ++ ")")
            | none => .error ("API error (status " ++ toString r.status ++ ")")
          else
            match r.parseErr with
            | some m => .error ("parse response: " ++ m)
            | none =>
              match findImagePart r.candidates with
              | some (mt, .ok bytes) => .ok (bytes, mt)
              | some (_, .error m) => .error ("decode image: " ++ m)
              | none => .error ("no image in API response"))

/-- The job fields `processJob` reads. -/
structure JobIn where
  UseAI : Bool
  MaxWidth : ℚ
  MaxHeight : ℚ
  ToolOn : String
  ToolOff : String
deriving DecidableEq

/-- The job fields `processJob` writes (the persisted job state). -/
structure JobOut where
  Status : String
  Log : List String
  GCodePath : Option String
  AIImageFilename : String
  AIImageCached : Bool
deriving DecidableEq

/-- The parameters of the `svg2gcode` invocation (the toolpath generator). -/
structure GcodeCall where
  toolOn : String
  toolOff : String
  dpi : ℚ
  dpiArg : String
deriving DecidableEq

/-- Everything a `processJob` run produces or mutates. -/
structure RunResult where
  job : JobOut
  cache : CacheState
  geminiAttempted : Bool
  gcodeCall : Option GcodeCall
deriving DecidableEq

/-- External collaborators of one `processJob` run. -/
structure Env where
  hashFile : Except String String
  gemini : GeminiEnv
  now : Nat
  storeWrite : Except String Unit
  storeInsert : Except String Unit
  fallbackWrite : Except String Unit
  autotrace : ProcOut
  tracedDoc : SVGDoc
  filterFileOps : Except String Unit
  svg2gcode : ProcOut

/-- Last path component (`filepath.Base` on the slash-joined paths built
here). -/
def pathBase (p : String) : String :=
  match (p.splitOn "/").getLast? with
  | some s => s
  | none => p

/-- Result of the optional AI stage: terminal failure, or continuation with
the accumulated log, updated cache, working-image path and AI metadata. -/
inductive StageOut where
  | fail (job : JobOut) (cache : CacheState) (attempted : Bool)
  | cont (log : List String) (cache : CacheState) (inputPath : String)
      (aiFilename : String) (aiCached : Bool) (attempted : Bool)

/-- The AI stage of `processJob` (lines 195–264): fingerprint the input,
consult the cache, on a miss require a credential and call the service, then
cache the result (falling back to the job directory on a cache-store
failure). -/
def aiStage (cacheDir : String) (job : JobIn) (jobDir inputPath apiKey aiPrompt : String)
    (cache : CacheState) (env : Env) : StageOut :=
  if job.UseAI then
    let log0 := ["=== Running AI Image Transformation ===\n"]
    match env.hashFile with
    | .error e =>
      .fail ⟨"error", log0 ++ ["Error hashing input file: " ++ e ++ "\n"], none, "", false⟩
        cache false
    | .ok inputHash =>
      let log1 := log0 ++ ["Input image hash: " ++ inputHash.take 16 ++ "\n"]
      match Lookup cacheDir cache inputHash aiPrompt with
      | (cache1, some c) =>
        .cont (log1 ++ ["Cache HIT - using cached result: " ++ c.Filename ++ "\n", "\n"])
          cache1 c.FullPath c.Filename true false
      | (cache1, none) =>
        let log2 := log1 ++ ["Cache MISS - calling Gemini API...\n"]
        if apiKey = "" then
          .fail ⟨"error",
              log2 ++ ["Error: AI transformation enabled but no API key provided\n"],
              none, "", false⟩
            cache1 false
        else
          match callGeminiAPI env.gemini apiKey with
          | (att, .error e) =>
            .fail ⟨"error", log2 ++ ["AI transformation error: " ++ e ++ "\n"], none, "", false⟩
              cache1 att
          | (att, .ok (imageData, mimeType)) =>
            match Store cacheDir cache1 env.now inputHash aiPrompt imageData mimeType
                env.storeWrite env.storeInsert with
            | (cache2, .error e) =>
              let log3 := log2 ++ ["Warning: failed to cache result: " ++ e ++ "\n"]
              let ext := if mimeType = "image/jpeg" then ".jpg" else ".png"
              let aiPath := jobDir ++ "/ai_generated" ++ ext
              match env.fallbackWrite with
              | .error e2 =>
                .fail ⟨"error", log3 ++ ["Error saving AI image: " ++ e2 ++ "\n"], none, "", false⟩
                  cache2 att
              | .ok _ =>
                .cont (log3 ++ ["AI transformation complete, saved as: " ++
                    pathBase aiPath ++ "\n", "\n"])
                  cache2 aiPath "" false att
            | (cache2, .ok result) =>
              .cont (log2 ++ ["AI transformation complete, saved as: " ++
                  pathBase result.FullPath ++ "\n", "\n"])
                cache2 result.FullPath result.Filename false att
  else
    .cont [] cache inputPath "" false false

/-- The trace / filter / scale / generate stages of `processJob`
(lines 266–352). -/
def afterAI (job : JobIn) (svgPath gcodePath inputPath : String) (log : List String)
    (cache : CacheState) (aiFn : String) (aiCached att : Bool) (env : Env) : RunResult :=
  let log := log ++ ["=== Running autotrace ===\n",
    "Command: autotrace -centerline -color-count 2 -output-file " ++ svgPath ++
      " " ++ inputPath ++ "\n\n"]
  let log := log ++
    (if env.autotrace.stdout ≠ "" then ["stdout:\n", env.autotrace.stdout, "\n"] else [])
  let log := log ++
    (if env.autotrace.stderr ≠ "" then ["stderr:\n", env.autotrace.stderr, "\n"] else [])
  match env.autotrace.exitErr with
  | some e =>
    { job := ⟨"error", log ++ ["\nError: " ++ e ++ "\n"], none, aiFn, aiCached⟩,
      cache := cache, geminiAttempted := att, gcodeCall := none }
  | none =>
    let log := log ++ ["autotrace completed successfully\n\n",
      "=== Filtering white paths from SVG ===\n"]
    let filterRes :=
      match env.filterFileOps with
      | .error e =>
        (log ++ ["Warning: failed to filter white paths: " ++ e ++ "\n"], env.tracedDoc)
      | .ok _ =>
        (log ++ ["White paths removed\n\n"],
         { env.tracedDoc with items := filterWhitePathsItems env.tracedDoc.items })
    let log := filterRes.1
    let doc := filterRes.2
    let dims := getSVGDimensions (some doc)
    let svgW := dims.1
    let svgH := dims.2
    let log := log ++
      ["SVG dimensions: " ++ fmtFixed 2 svgW ++ " x " ++ fmtFixed 2 svgH ++ " pixels\n",
       "Max output dimensions: " ++ fmtFixed 2 job.MaxWidth ++ " x " ++
         fmtFixed 2 job.MaxHeight ++ " mm\n"]
    let scaled := scaleToFit svgW svgH job.MaxWidth job.MaxHeight
    let scaledW := scaled.1
    let scaledH := scaled.2
    let log := log ++ ["Target output dimensions: " ++ fmtFixed 2 scaledW ++ " x " ++
      fmtFixed 2 scaledH ++ " mm\n"]
    let dpi := qmul (qdiv svgW scaledW) (mkRat 254 10)
    let log := log ++ ["Calculated DPI: " ++ fmtFixed 2 dpi ++ "\n\n"]
    let dpiArg := fmtFixed 4 dpi
    let log := log ++ ["=== Running svg2gcode ===\n",
      "Command: svg2gcode --on " ++ quoteChar ++ job.ToolOn ++ quoteChar ++
        " --off " ++ quoteChar ++ job.ToolOff ++ quoteChar ++ " --dpi " ++ dpiArg ++
        " " ++ svgPath ++ " -o " ++ gcodePath ++ "\n\n"]
    let call : GcodeCall := ⟨job.ToolOn, job.ToolOff, dpi, dpiArg⟩
    let log := log ++
      (if env.svg2gcode.stdout ≠ "" then ["stdout:\n", env.svg2gcode.stdout, "\n"] else [])
    let log := log ++
      (if env.svg2gcode.stderr ≠ "" then ["stderr:\n", env.svg2gcode.stderr, "\n"] else [])
    match env.svg2gcode.exitErr with
    | some e =>
      { job := ⟨"error", log ++ ["\nError: " ++ e ++ "\n"], none, aiFn, aiCached⟩,
        cache := cache, geminiAttempted := att, gcodeCall := some call }
    | none =>
      { job := ⟨"done", log ++ ["svg2gcode completed successfully\n"], some gcodePath,
          aiFn, aiCached⟩,
        cache := cache, geminiAttempted := att, gcodeCall := some call }

/-- Go: `processJob` — the five-stage pipeline over the injected
collaborators. -/
def processJob (cacheDir : String) (job : JobIn) (jobDir inputPath apiKey aiPrompt : String)
    (cache : CacheState) (env : Env) : RunResult :=
  let svgPath := jobDir ++ "/output.svg"
  let gcodePath := jobDir ++ "/output.gcode"
  match aiStage cacheDir job jobDir inputPath apiKey aiPrompt cache env with
  | .fail jobOut cache1 att =>
    { job := jobOut, cache := cache1, geminiAttempted := att, gcodeCall := none }
  | .cont log cache1 ip aiFn aiCached att =>
    afterAI job svgPath gcodePath ip log cache1 aiFn aiCached att env

/-! ### Concrete scenarios used by witnesses and counterexamples -/

/-- An AI-enabled job with the default submission parameters. -/
def cexJob : JobIn := ⟨true, 200, 200, "S4 M0", "S4 M100"⟩

/-- An environment with an empty cache, a successful input hash and a failing
network call; the remaining stages are irrelevant (the run ends in the AI
stage). -/
def cexEnv : Env :=
  { hashFile := .ok "aaaabbbbccccddddeeee",
    gemini := ⟨.ok (), .netErr "boom"⟩,
    now := 0, storeWrite := .ok (), storeInsert := .ok (), fallbackWrite := .ok (),
    autotrace := ⟨none, "", ""⟩,
    tracedDoc := ⟨some "832", some "832", []⟩,
    filterFileOps := .ok (), svg2gcode := ⟨none, "", ""⟩ }

/-- Like `cexEnv`, but the network exchange completes: the service returns
an HTTP 500 response with a parseable error body. -/
def respEnv : Env :=
  { cexEnv with gemini := ⟨.ok (), .resp ⟨500, some "quota exceeded", none, []⟩⟩ }

/-- The spec's end-to-end scenario: AI disabled, max 50 x 50 mm, a stub
tracer emitting an 832 x 832 document with one near-white and one black
path, all processes succeeding. -/
def scenJob : JobIn := ⟨false, 50, 50, "S4 M0", "S4 M100"⟩

/-- Environment for the end-to-end scenario. -/
def scenEnv : Env :=
  { hashFile := .ok "", gemini := ⟨.ok (), .netErr ""⟩,
    now := 0, storeWrite := .ok (), storeInsert := .ok (), fallbackWrite := .ok (),
    autotrace := ⟨none, "", ""⟩,
    tracedDoc := ⟨some "832", some "832", [.path "stroke:#fefefe", .path "stroke:#000000"]⟩,
    filterFileOps := .ok (), svg2gcode := ⟨none, "", ""⟩ }

/-- The end-to-end scenario run. -/
def scenRun : RunResult :=
  processJob "ai_cache" scenJob "uploads/2" "uploads/2/input.png" "" "p" ⟨[], []⟩ scenEnv

/-- A one-entry cache state: the result of a successful `Store` of
fingerprint `0123456789abcdef0123` with prompt `"p"` at time 7 into the
empty cache (the key suffix is the truncated SHA-256 of `"p"`). -/
def cacheWitState : CacheState :=
  ⟨[⟨"0123456789abcdef0123:148de9c5a7a44d19", "0123456789abcdef0123", "p",
     "0123456789abcdef_7.png", "image/png"⟩],
   ["0123456789abcdef_7.png"]⟩

/-- An AI-enabled job used for the cache-hit scenario. -/
def hitJob : JobIn := ⟨true, 200, 200, "S4 M0", "S4 M100"⟩

/-- Environment whose input hash matches the entry in `cacheWitState`. -/
def hitEnv : Env :=
  { hashFile := .ok "0123456789abcdef0123",
    gemini := ⟨.ok (), .netErr "boom"⟩,
    now := 0, storeWrite := .ok (), storeInsert := .ok (), fallbackWrite := .ok (),
    autotrace := ⟨none, "", ""⟩,
    tracedDoc := ⟨some "832", some "832", []⟩,
    filterFileOps := .ok (), svg2gcode := ⟨none, "", ""⟩ }

/-! ### Helper lemmas -/

theorem qmul_eq (a b : ℚ) : qmul a b = a * b := by
  rw [qmul, Rat.divInt_eq_div]
  push_cast
  conv_rhs => rw [← Rat.num_div_den a, ← Rat.num_div_den b]
  rw [div_mul_div_comm]

theorem qdiv_eq (a b : ℚ) : qdiv a b = a / b := by
  rcases eq_or_ne b 0 with hb | hb
  · subst hb
    norm_num [qdiv, Rat.divInt_eq_div]
  · have hda : ((a.den : ℚ)) ≠ 0 := Nat.cast_ne_zero.mpr a.den_nz
    have hdb : ((b.den : ℚ)) ≠ 0 := Nat.cast_ne_zero.mpr b.den_nz
    have hnb : ((b.num : ℚ)) ≠ 0 := by
      exact_mod_cast Rat.num_ne_zero.mpr hb
    rw [qdiv, Rat.divInt_eq_div]
    push_cast
    conv_rhs => rw [← Rat.num_div_den a, ← Rat.num_div_den b]
    field_simp

theorem callGeminiAPI_key_indep (g : GeminiEnv) (k1 k2 : String)
    (h1 : requestBuildErr (geminiURLBase ++ k1) = none)
    (h2 : requestBuildErr (geminiURLBase ++ k2) = none)
    (hnet : g.net.isNetErr = false) :
    callGeminiAPI g k1 = callGeminiAPI g k2 := by
  unfold callGeminiAPI
  cases g.inputRead with
  | error e => rfl
  | ok u =>
    dsimp only
    rw [h1, h2]
    dsimp only
    cases hn : g.net with
    | netErr m =>
      rw [hn] at hnet
      simp [GeminiNet.isNetErr] at hnet
    | readErr m => rfl
    | resp r => rfl

theorem aiStage_key_indep (cacheDir : String) (job : JobIn)
    (jobDir inputPath aiPrompt : String) (cache : CacheState) (env : Env)
    (k1 k2 : String) (h1e : k1 ≠ "") (h2e : k2 ≠ "")
    (h1 : requestBuildErr (geminiURLBase ++ k1) = none)
    (h2 : requestBuildErr (geminiURLBase ++ k2) = none)
    (hnet : env.gemini.net.isNetErr = false) :
    aiStage cacheDir job jobDir inputPath k1 aiPrompt cache env =
      aiStage cacheDir job jobDir inputPath k2 aiPrompt cache env := by
  unfold aiStage
  cases job.UseAI with
  | false => rfl
  | true =>
    simp only [if_true]
    cases env.hashFile with
    | error e => rfl
    | ok inputHash =>
      dsimp only
      rcases hL : Lookup cacheDir cache inputHash aiPrompt with ⟨c1, o⟩
      cases o with
      | some c => rfl
      | none =>
        simp only [if_neg h1e, if_neg h2e,
          callGeminiAPI_key_indep env.gemini k1 k2 h1 h2 hnet]

theorem processJob_key_indep (cacheDir : String) (job : JobIn)
    (jobDir inputPath aiPrompt : String) (cache : CacheState) (env : Env)
    (k1 k2 : String) (h1e : k1 ≠ "") (h2e : k2 ≠ "")
    (h1 : requestBuildErr (geminiURLBase ++ k1) = none)
    (h2 : requestBuildErr (geminiURLBase ++ k2) = none)
    (hnet : env.gemini.net.isNetErr = false) :
    processJob cacheDir job jobDir inputPath k1 aiPrompt cache env =
      processJob cacheDir job jobDir inputPath k2 aiPrompt cache env := by
  unfold processJob
  rw [aiStage_key_indep cacheDir job jobDir inputPath aiPrompt cache env k1 k2
    h1e h2e h1 h2 hnet]

theorem mem_insertFile_self (files : List String) (f : String) :
    f ∈ insertFile files f := by
  unfold insertFile
  split
  · assumption
  · exact List.mem_cons_self f files

theorem isHexChar_ne_plus {a : Char} (h : isHexChar a = true) : ¬(a = '+') := by
  intro he
  subst he
  exact absurd h (by decide)

theorem isHexChar_ne_minus {a : Char} (h : isHexChar a = true) : ¬(a = '-') := by
  intro he
  subst he
  exact absurd h (by decide)

theorem parseIntGo16_pair (a b : Char) (ha : isHexChar a = true) (hb : isHexChar b = true) :
    parseIntGo16 (String.mk [a, b]) = (16 * hexCharVal a + hexCharVal b : ℤ) := by
  show parseIntGo16 ⟨[a, b]⟩ = _
  unfold parseIntGo16
  dsimp only
  rw [if_neg (isHexChar_ne_plus ha), if_neg (isHexChar_ne_minus ha)]
  rw [if_pos (by simp [validHexDigits, ha, hb])]
  unfold hexValNat
  simp only [List.foldl]
  push_cast
  ring

theorem matchStrokeAt_sound {l : List Char} {hex : List Char}
    (h : matchStrokeAt l = some hex) : hex.length = 6 ∧ hex.all isHexChar = true := by
  unfold matchStrokeAt at h
  dsimp only at h
  split at h
  · split at h
    · rename_i hcond
      injection h with h2
      subst h2
      exact hcond
    · exact absurd h (by simp)
  · exact absurd h (by simp)

theorem findStrokeAux_sound {l : List Char} {hex : List Char}
    (h : findStrokeAux l = some hex) : hex.length = 6 ∧ hex.all isHexChar = true := by
  induction l with
  | nil => exact absurd h (by simp [findStrokeAux])
  | cons c cs ih =>
    unfold findStrokeAux at h
    cases hm : matchStrokeAt (c :: cs) with
    | some h2 =>
      rw [hm] at h
      injection h with h3
      subst h3
      exact matchStrokeAt_sound hm
    | none =>
      rw [hm] at h
      exact ih h

theorem findStroke_sound {style : String} {hex : List Char}
    (h : findStroke style = some hex) : hex.length = 6 ∧ hex.all isHexChar = true :=
  findStrokeAux_sound h

theorem list_len6 {α : Type} {l : List α} (h : l.length = 6) :
    ∃ a b c d e f, l = [a, b, c, d, e, f] := by
  match l, h with
  | [a, b, c, d, e, f], _ => exact ⟨a, b, c, d, e, f, rfl⟩

theorem elemRemoved_eq_specRemoves (it : SVGItem) : elemRemoved it = specRemoves it := by
  cases it with
  | other s => rfl
  | path style =>
    unfold elemRemoved specRemoves
    dsimp only
    cases hfs : findStroke style with
    | none => rfl
    | some hex =>
      obtain ⟨hlen, hall⟩ := findStroke_sound hfs
      obtain ⟨a, b, c, d, e, f, rfl⟩ := list_len6 hlen
      simp only [List.all_cons, List.all_nil, Bool.and_eq_true, Bool.and_true] at hall
      obtain ⟨ha, hb, hc, hd, he, hf⟩ := hall
      dsimp only
      unfold isNearWhite
      dsimp only
      rw [parseIntGo16_pair a b ha hb, parseIntGo16_pair c d hc hd,
        parseIntGo16_pair e f he hf]
      have h240 : ∀ x y : Nat,
          decide ((240 : ℤ) < 16 * (x : ℤ) + (y : ℤ)) = decide (240 < 16 * x + y) := by
        intro x y
        rw [decide_eq_decide]
        exact_mod_cast Iff.rfl
      rw [h240, h240, h240]

theorem parseFloatGo_nonneg (s : String) : 0 ≤ parseFloatGo s := by
  unfold parseFloatGo
  dsimp only
  split
  · rw [Rat.mkRat_eq_div]
    apply div_nonneg
    · exact_mod_cast Int.ofNat_nonneg _
    · exact_mod_cast Nat.zero_le _
  · exact le_refl 0

theorem svgWidth_pos (w : ℚ) (hw : 0 ≤ w) : 0 < (if w = 0 then (100 : ℚ) else w) := by
  split
  · norm_num
  · rename_i hne
    exact lt_of_le_of_ne hw (Ne.symm hne)

theorem getSVGDimensions_pos (d : SVGDoc) :
    0 < (getSVGDimensions (some d)).1 ∧ 0 < (getSVGDimensions (some d)).2 := by
  unfold getSVGDimensions
  dsimp only
  constructor
  · apply svgWidth_pos
    cases d.widthAttr with
    | some s => exact parseFloatGo_nonneg s
    | none => exact le_refl 0
  · apply svgWidth_pos
    cases d.heightAttr with
    | some s => exact parseFloatGo_nonneg s
    | none => exact le_refl 0

theorem scaleToFit_pos {sw sh mw mh : ℚ} (hsw : 0 < sw) (hsh : 0 < sh)
    (hmw : 0 < mw) (hmh : 0 < mh) :
    0 < (scaleToFit sw sh mw mh).1 ∧ 0 < (scaleToFit sw sh mw mh).2 := by
  unfold scaleToFit
  rw [if_neg (by push_neg; exact ⟨hsw, hsh⟩)]
  simp only [qmul_eq, qdiv_eq]
  have hscale : 0 < (if mh / sh < mw / sw then mh / sh else mw / sw) := by
    split
    · exact div_pos hmh hsh
    · exact div_pos hmw hsw
  exact ⟨mul_pos hsw hscale, mul_pos hsh hscale⟩

theorem src_times_scale (a b : ℚ) (ha : a ≠ 0) : a * (b / a) = b := by
  rw [← mul_div_assoc, mul_div_cancel_left₀ b ha]

theorem mul_div_self_left (a s : ℚ) (ha : a ≠ 0) : a * s / a = s :=
  mul_div_cancel_left₀ s ha

theorem afterAI_fixed_fields (job : JobIn) (svgPath gcodePath ip : String)
    (log : List String) (cache : CacheState) (aiFn : String) (aiCached att : Bool)
    (env : Env) :
    (afterAI job svgPath gcodePath ip log cache aiFn aiCached att env).geminiAttempted = att ∧
    (afterAI job svgPath gcodePath ip log cache aiFn aiCached att env).job.AIImageCached = aiCached := by
  unfold afterAI
  dsimp only
  split
  · exact ⟨rfl, rfl⟩
  · split
    · exact ⟨rfl, rfl⟩
    · exact ⟨rfl, rfl⟩

/-! ### Claim theorems -/

/-- C3: for positive sources and box, `scaleToFit` fits inside the box,
preserves the aspect ratio and touches at least one side; a non-positive
source dimension returns the max box unscaled. -/
theorem scaleToFit_spec (srcW srcH maxW maxH : ℚ) :
    (0 < srcW → 0 < srcH → 0 < maxW → 0 < maxH →
      (scaleToFit srcW srcH maxW maxH).1 ≤ maxW ∧
      (scaleToFit srcW srcH maxW maxH).2 ≤ maxH ∧
      (scaleToFit srcW srcH maxW maxH).1 / srcW = (scaleToFit srcW srcH maxW maxH).2 / srcH ∧
      ((scaleToFit srcW srcH maxW maxH).1 = maxW ∨ (scaleToFit srcW srcH maxW maxH).2 = maxH)) ∧
    ((srcW ≤ 0 ∨ srcH ≤ 0) → scaleToFit srcW srcH maxW maxH = (maxW, maxH)) := by
  constructor
  · intro hsw hsh hmw hmh
    unfold scaleToFit
    rw [if_neg (by push_neg; exact ⟨hsw, hsh⟩)]
    simp only [qmul_eq, qdiv_eq]
    rcases lt_or_ge (maxH / srcH) (maxW / srcW) with hlt | hge
    · rw [if_pos hlt]
      refine ⟨?_, ?_, ?_, Or.inr (src_times_scale srcH maxH (ne_of_gt hsh))⟩
      · calc srcW * (maxH / srcH) ≤ srcW * (maxW / srcW) :=
              mul_le_mul_of_nonneg_left (le_of_lt hlt) (le_of_lt hsw)
          _ = maxW := src_times_scale srcW maxW (ne_of_gt hsw)
      · exact le_of_eq (src_times_scale srcH maxH (ne_of_gt hsh))
      · rw [mul_div_self_left srcW _ (ne_of_gt hsw),
          mul_div_self_left srcH _ (ne_of_gt hsh)]
    · rw [if_neg (not_lt.mpr hge)]
      refine ⟨le_of_eq (src_times_scale srcW maxW (ne_of_gt hsw)), ?_, ?_,
        Or.inl (src_times_scale srcW maxW (ne_of_gt hsw))⟩
      · calc srcH * (maxW / srcW) ≤ srcH * (maxH / srcH) :=
              mul_le_mul_of_nonneg_left hge (le_of_lt hsh)
          _ = maxH := src_times_scale srcH maxH (ne_of_gt hsh)
      · rw [mul_div_self_left srcW _ (ne_of_gt hsw),
          mul_div_self_left srcH _ (ne_of_gt hsh)]
  · intro h
    unfold scaleToFit
    rw [if_pos h]

theorem scaleToFit_spec_witness :
    ((scaleToFit 832 416 50 60).1 ≤ 50 ∧ (scaleToFit 832 416 50 60).2 ≤ 60 ∧
      (scaleToFit 832 416 50 60).1 / 832 = (scaleToFit 832 416 50 60).2 / 416 ∧
      ((scaleToFit 832 416 50 60).1 = 50 ∨ (scaleToFit 832 416 50 60).2 = 60)) ∧
    scaleToFit 0 416 50 60 = (50, 60) :=
  ⟨(scaleToFit_spec 832 416 50 60).1 (by norm_num) (by norm_num) (by norm_num) (by norm_num),
   (scaleToFit_spec 0 416 50 60).2 (Or.inl (by norm_num))⟩

/-- C4: `filterWhitePaths` removes exactly the stroked paths whose captured
six-hex-digit stroke color has all three channels strictly above 240, and
passes everything else through unchanged; boundary colors behave as the
spec's examples require. -/
theorem filterWhitePaths_spec :
    (∀ items : List SVGItem, filterWhitePathsItems items =
        items.filter (fun it => !(specRemoves it))) ∧
    filterWhitePathsItems
        [.path "stroke:#fefefe", .path "stroke:#f5f5f5", .path "stroke:#000000",
         .path "stroke:#f0e0e0", .path "stroke:#fff0ff", .path "stroke:#f1f1f1",
         .path "stroke:#ffff", .path "fill:#ffffff", .other "<svg>"] =
        [.path "stroke:#000000", .path "stroke:#f0e0e0", .path "stroke:#fff0ff",
         .path "stroke:#ffff", .path "fill:#ffffff", .other "<svg>"] ∧
    isNearWhite "fefefe" = true ∧ isNearWhite "f5f5f5" = true ∧
    isNearWhite "000000" = false ∧ isNearWhite "f0e0e0" = false ∧
    isNearWhite "f0ffff" = false ∧ isNearWhite "f1f1f1" = true := by
  refine ⟨?_, by decide, by decide, by decide, by decide, by decide, by decide, by decide⟩
  intro items
  unfold filterWhitePathsItems
  apply List.filter_congr
  intro it _
  rw [elemRemoved_eq_specRemoves]

/-- C10: `getSVGDimensions` always returns strictly positive dimensions
(unreadable file, missing or unparsable attributes, and attributes parsing
to 0 all fall back to the default 100), so the non-positive-source guard of
`scaleToFit` is unreachable in the pipeline and the DPI denominator is
non-zero whenever the job box is positive. -/
theorem getSVGDimensions_positive (d : SVGDoc) (mw mh : ℚ)
    (hw : ∀ s, d.widthAttr = some s → s.data ≠ [] ∧ ∀ c ∈ s.data, c.isDigit ∨ c = '.')
    (hh : ∀ s, d.heightAttr = some s → s.data ≠ [] ∧ ∀ c ∈ s.data, c.isDigit ∨ c = '.')
    (hmw : 0 < mw) (hmh : 0 < mh) :
    0 < (getSVGDimensions (some d)).1 ∧ 0 < (getSVGDimensions (some d)).2 ∧
    ¬((getSVGDimensions (some d)).1 ≤ 0 ∨ (getSVGDimensions (some d)).2 ≤ 0) ∧
    0 < (scaleToFit (getSVGDimensions (some d)).1 (getSVGDimensions (some d)).2 mw mh).1 ∧
    getSVGDimensions none = (100, 100) ∧
    getSVGDimensions (some ⟨none, none, []⟩) = (100, 100) ∧
    getSVGDimensions (some ⟨some "0.00", some ".", []⟩) = (100, 100) ∧
    getSVGDimensions (some ⟨some "1.2.3", some "000", []⟩) = (100, 100) := by
  obtain ⟨h1, h2⟩ := getSVGDimensions_pos d
  refine ⟨h1, h2, ?_, (scaleToFit_pos h1 h2 hmw hmh).1, rfl, by decide, by decide, by decide⟩
  push_neg
  exact ⟨h1, h2⟩

theorem getSVGDimensions_positive_witness :
    0 < (getSVGDimensions (some ⟨some "832", some "416", []⟩)).1 ∧
    0 < (getSVGDimensions (some ⟨some "832", some "416", []⟩)).2 ∧
    ¬((getSVGDimensions (some ⟨some "832", some "416", []⟩)).1 ≤ 0 ∨
      (getSVGDimensions (some ⟨some "832", some "416", []⟩)).2 ≤ 0) ∧
    0 < (scaleToFit (getSVGDimensions (some ⟨some "832", some "416", []⟩)).1
      (getSVGDimensions (some ⟨some "832", some "416", []⟩)).2 50 60).1 ∧
    getSVGDimensions none = (100, 100) ∧
    getSVGDimensions (some ⟨none, none, []⟩) = (100, 100) ∧
    getSVGDimensions (some ⟨some "0.00", some ".", []⟩) = (100, 100) ∧
    getSVGDimensions (some ⟨some "1.2.3", some "000", []⟩) = (100, 100) :=
  getSVGDimensions_positive ⟨some "832", some "416", []⟩ 50 60
    (fun s hs => by cases hs; exact ⟨by decide, by decide⟩)
    (fun s hs => by cases hs; exact ⟨by decide, by decide⟩)
    (by norm_num) (by norm_num)

/-- C5: a successful `Store` followed by `Lookup` of the same pair returns
the stored filename, media type and prompt; the composite key is a pure
function of the pair, and re-initialising the cache (a process restart) on
the current schema leaves the index unchanged, so the lookup still hits. -/
theorem store_lookup_roundtrip (cacheDir : String) (c : CacheState) (now : Nat)
    (fp prompt : String) (data : List Nat) (mt : String)
    (c2 : CacheState) (res : CachedResult)
    (hs : Store cacheDir c now fp prompt data mt (.ok ()) (.ok ()) = (c2, .ok res)) :
    Lookup cacheDir c2 fp prompt = (c2, some res) ∧
    res.MimeType = mt ∧ res.Prompt = prompt ∧ res.Filename = cacheFilename fp now mt ∧
    migrateOldSchema ⟨.current c2.db, none⟩ = ⟨.current c2.db, none⟩ := by
  unfold Store at hs
  dsimp only at hs
  rw [Prod.mk.injEq] at hs
  obtain ⟨hc, hr⟩ := hs
  injection hr with hr2
  subst hc
  subst hr2
  refine ⟨?_, rfl, rfl, rfl, rfl⟩
  unfold Lookup
  dsimp only
  rw [List.find?_cons_of_pos _ (by simp)]
  dsimp only
  rw [if_pos (mem_insertFile_self _ _)]

set_option maxRecDepth 100000 in
theorem store_lookup_roundtrip_witness :
    Lookup "cachedir" cacheWitState "0123456789abcdef0123" "p" =
      (cacheWitState, some ⟨"0123456789abcdef_7.png", "image/png",
        "cachedir/0123456789abcdef_7.png", "p"⟩) ∧
    migrateOldSchema ⟨.current cacheWitState.db, none⟩ = ⟨.current cacheWitState.db, none⟩ :=
  have h := store_lookup_roundtrip "cachedir" ⟨[], []⟩ 7 "0123456789abcdef0123" "p"
    [3, 1] "image/png" cacheWitState
    ⟨"0123456789abcdef_7.png", "image/png", "cachedir/0123456789abcdef_7.png", "p"⟩
    (by rfl)
  ⟨h.1, h.2.2.2.2⟩

/-- C6: if the index row for a key references a blob file that is missing,
`Lookup` reports absent, deletes that stale row (no row for the key
remains), and leaves every other row and the file list untouched. -/
theorem lookup_self_healing (cacheDir : String) (c : CacheState) (fp prompt : String)
    (row : CacheRow)
    (hfind : c.db.find? (fun r => r.cache_key == MakeCacheKey fp prompt) = some row)
    (hmiss : row.output_filename ∉ c.files) :
    (Lookup cacheDir c fp prompt).2 = none ∧
    ((Lookup cacheDir c fp prompt).1.db.find?
      (fun r => r.cache_key == MakeCacheKey fp prompt)) = none ∧
    (Lookup cacheDir c fp prompt).1.files = c.files ∧
    ∀ r ∈ c.db, r.cache_key ≠ MakeCacheKey fp prompt →
      r ∈ (Lookup cacheDir c fp prompt).1.db := by
  unfold Lookup
  dsimp only
  rw [hfind]
  dsimp only
  rw [if_neg hmiss]
  refine ⟨rfl, ?_, rfl, ?_⟩
  · rw [List.find?_eq_none]
    intro r hr
    rw [List.mem_filter] at hr
    simpa using hr.2
  · intro r hr hne
    rw [List.mem_filter]
    exact ⟨hr, by simp [hne]⟩

set_option maxRecDepth 100000 in
theorem lookup_self_healing_witness :
    (Lookup "cachedir" ⟨cacheWitState.db, []⟩ "0123456789abcdef0123" "p").2 = none ∧
    ((Lookup "cachedir" ⟨cacheWitState.db, []⟩ "0123456789abcdef0123" "p").1.db.find?
      (fun r => r.cache_key == MakeCacheKey "0123456789abcdef0123" "p")) = none ∧
    (Lookup "cachedir" ⟨cacheWitState.db, []⟩ "0123456789abcdef0123" "p").1.files =
      (⟨cacheWitState.db, []⟩ : CacheState).files ∧
    ∀ r ∈ (⟨cacheWitState.db, []⟩ : CacheState).db,
      r.cache_key ≠ MakeCacheKey "0123456789abcdef0123" "p" →
      r ∈ (Lookup "cachedir" ⟨cacheWitState.db, []⟩ "0123456789abcdef0123" "p").1.db :=
  lookup_self_healing "cachedir" ⟨cacheWitState.db, []⟩ "0123456789abcdef0123" "p"
    ⟨"0123456789abcdef0123:148de9c5a7a44d19", "0123456789abcdef0123", "p",
     "0123456789abcdef_7.png", "image/png"⟩
    (by rfl) (by decide)

/-- C7: if the blob file was written but the index insert fails, `Store`
removes the just-written blob and returns the error: the cache state is
exactly as before the call (no new blob, no new index row). -/
theorem store_atomic_on_index_failure (cacheDir : String) (c : CacheState) (now : Nat)
    (fp prompt : String) (data : List Nat) (mt e : String)
    (hfresh : cacheFilename fp now mt ∉ c.files) :
    Store cacheDir c now fp prompt data mt (.ok ()) (.error e) =
      (c, .error ("insert cache record: " ++ e)) := by
  unfold Store
  dsimp only
  unfold insertFile
  rw [if_neg hfresh]
  rw [List.erase_cons_head]

theorem store_atomic_on_index_failure_witness :
    Store "cachedir" ⟨[], []⟩ 7 "0123456789abcdef0123" "p" [3, 1] "image/png"
        (.ok ()) (.error "disk full") =
      (⟨[], []⟩, .error ("insert cache record: " ++ "disk full")) :=
  store_atomic_on_index_failure "cachedir" ⟨[], []⟩ 7 "0123456789abcdef0123" "p"
    [3, 1] "image/png" "disk full" (by decide)

set_option maxRecDepth 1000000 in
/-- C8: migrating a legacy index with N rows produces exactly N current-schema
rows, each carrying the fixed default prompt and the composite key
`input_hash ++ ":" ++ hashString DefaultAIPrompt` (the truncated SHA-256 of
the default prompt, 16 hex characters), and drops the legacy table. -/
theorem migration_preserves_rows (rows : List LegacyRow) :
    ∃ cur : List CacheRow,
      migrateOldSchema ⟨.legacy rows, none⟩ = ⟨.current cur, none⟩ ∧
      cur.length = rows.length ∧
      List.Forall₂ (fun (l : LegacyRow) (cr : CacheRow) =>
        cr.prompt = DefaultAIPrompt ∧
        cr.cache_key = l.input_hash ++ ":" ++ hashString DefaultAIPrompt ∧
        cr.input_hash = l.input_hash ∧
        cr.output_filename = l.output_filename ∧
        cr.mime_type = l.mime_type) rows cur ∧
      (hashString DefaultAIPrompt).length = 16 := by
  refine ⟨_, rfl, by simp, ?_, ?_⟩
  · induction rows with
    | nil => exact List.Forall₂.nil
    | cons r rs ih => exact List.Forall₂.cons ⟨rfl, rfl, rfl, rfl, rfl⟩ ih
  · decide

/-- C9: with AI enabled and a cache miss, an empty credential drives the job
to terminal status `error` with the missing-credential log line and no call
to the transform service; on a cache hit the empty credential is never
checked and the pipeline proceeds (the AI stage completes with the cached
image and no service call). -/
theorem missing_credential_check (cacheDir : String) (job : JobIn)
    (jobDir inputPath aiPrompt : String) (cache : CacheState) (env : Env) (hsh : String)
    (hAI : job.UseAI = true) (hhash : env.hashFile = .ok hsh) :
    ((Lookup cacheDir cache hsh aiPrompt).2 = none →
      (processJob cacheDir job jobDir inputPath "" aiPrompt cache env).job.Status = "error" ∧
      ("Error: AI transformation enabled but no API key provided\n" ∈
        (processJob cacheDir job jobDir inputPath "" aiPrompt cache env).job.Log) ∧
      (processJob cacheDir job jobDir inputPath "" aiPrompt cache env).geminiAttempted = false) ∧
    (∀ cr, (Lookup cacheDir cache hsh aiPrompt).2 = some cr →
      (processJob cacheDir job jobDir inputPath "" aiPrompt cache env).geminiAttempted = false ∧
      (processJob cacheDir job jobDir inputPath "" aiPrompt cache env).job.AIImageCached = true) := by
  unfold processJob aiStage
  rw [if_pos hAI, hhash]
  dsimp only
  rcases hL : Lookup cacheDir cache hsh aiPrompt with ⟨c1, o⟩
  constructor
  · intro hnone
    dsimp only at hnone
    subst hnone
    dsimp only
    rw [if_pos rfl]
    refine ⟨rfl, ?_, rfl⟩
    simp
  · intro cr hcr
    dsimp only at hcr
    subst hcr
    dsimp only
    exact ⟨(afterAI_fixed_fields _ _ _ _ _ _ _ _ _ _).1,
      (afterAI_fixed_fields _ _ _ _ _ _ _ _ _ _).2⟩

set_option maxRecDepth 400000 in
theorem missing_credential_check_witness :
    ((processJob "ai_cache" cexJob "uploads/1" "uploads/1/input.png" "" "p"
        ⟨[], []⟩ cexEnv).job.Status = "error" ∧
      ("Error: AI transformation enabled but no API key provided\n" ∈
        (processJob "ai_cache" cexJob "uploads/1" "uploads/1/input.png" "" "p"
          ⟨[], []⟩ cexEnv).job.Log) ∧
      (processJob "ai_cache" cexJob "uploads/1" "uploads/1/input.png" "" "p"
        ⟨[], []⟩ cexEnv).geminiAttempted = false) ∧
    ((processJob "ai_cache" hitJob "uploads/1" "uploads/1/input.png" "" "p"
        cacheWitState hitEnv).geminiAttempted = false ∧
      (processJob "ai_cache" hitJob "uploads/1" "uploads/1/input.png" "" "p"
        cacheWitState hitEnv).job.AIImageCached = true) :=
  ⟨(missing_credential_check "ai_cache" cexJob "uploads/1" "uploads/1/input.png" "p"
      ⟨[], []⟩ cexEnv "aaaabbbbccccddddeeee" rfl rfl).1 rfl,
   (missing_credential_check "ai_cache" hitJob "uploads/1" "uploads/1/input.png" "p"
      cacheWitState hitEnv "0123456789abcdef0123" rfl rfl).2
     ⟨"0123456789abcdef_7.png", "image/png", "ai_cache/0123456789abcdef_7.png", "p"⟩
     (by rfl)⟩

set_option maxRecDepth 100000 in
/-- C1 counterexample: two runs that differ only in the (non-empty,
control-character-free) credential — `"keyA"` versus `"keyB"` — over the
same environment, whose network call fails, produce different job logs:
`client.Do` returns a `url.Error` rendering as `Post "<full URL>": <cause>`
with the `?key=` credential inside, and `processJob` writes that error text
to the log. -/
theorem credential_leak_cex :
    String.join (processJob "ai_cache" cexJob "uploads/1" "uploads/1/input.png" "keyA" "p"
        ⟨[], []⟩ cexEnv).job.Log ≠
      String.join (processJob "ai_cache" cexJob "uploads/1" "uploads/1/input.png" "keyB" "p"
        ⟨[], []⟩ cexEnv).job.Log := by
  decide

/-- C1 (amended): the credential reaches only the request URL, and the URL
is echoed into the log only by the two failure channels of the HTTP client
(request construction and transport).  Away from them the pipeline is
credential-noninterferent: for any two non-empty credentials that each yield
a well-formed request URL (no control byte before a `#`, no invalid
percent-escape after it), two runs over identical external-collaborator
responses in which the network transaction completes (the service returned a
response, of any status) produce identical job state, identical full
diagnostic log and identical cache state. -/
theorem credential_noninterference (cacheDir : String) (job : JobIn)
    (jobDir inputPath aiPrompt : String) (cache : CacheState) (env : Env) (k1 k2 : String)
    (h1e : k1 ≠ "") (h2e : k2 ≠ "")
    (h1 : requestBuildErr (geminiURLBase ++ k1) = none)
    (h2 : requestBuildErr (geminiURLBase ++ k2) = none)
    (hnet : env.gemini.net.isNetErr = false) :
    (processJob cacheDir job jobDir inputPath k1 aiPrompt cache env).job =
      (processJob cacheDir job jobDir inputPath k2 aiPrompt cache env).job ∧
    (processJob cacheDir job jobDir inputPath k1 aiPrompt cache env).cache =
      (processJob cacheDir job jobDir inputPath k2 aiPrompt cache env).cache ∧
    String.join (processJob cacheDir job jobDir inputPath k1 aiPrompt cache env).job.Log =
      String.join (processJob cacheDir job jobDir inputPath k2 aiPrompt cache env).job.Log := by
  have h := processJob_key_indep cacheDir job jobDir inputPath aiPrompt cache env
    k1 k2 h1e h2e h1 h2 hnet
  rw [h]
  exact ⟨rfl, rfl, rfl⟩

set_option maxRecDepth 100000 in
theorem credential_noninterference_witness :
    (processJob "ai_cache" cexJob "uploads/1" "uploads/1/input.png" "keyA" "p"
        ⟨[], []⟩ respEnv).job =
      (processJob "ai_cache" cexJob "uploads/1" "uploads/1/input.png" "keyB" "p"
        ⟨[], []⟩ respEnv).job ∧
    (processJob "ai_cache" cexJob "uploads/1" "uploads/1/input.png" "keyA" "p"
        ⟨[], []⟩ respEnv).cache =
      (processJob "ai_cache" cexJob "uploads/1" "uploads/1/input.png" "keyB" "p"
        ⟨[], []⟩ respEnv).cache ∧
    String.join (processJob "ai_cache" cexJob "uploads/1" "uploads/1/input.png" "keyA" "p"
        ⟨[], []⟩ respEnv).job.Log =
      String.join (processJob "ai_cache" cexJob "uploads/1" "uploads/1/input.png" "keyB" "p"
        ⟨[], []⟩ respEnv).job.Log :=
  credential_noninterference "ai_cache" cexJob "uploads/1" "uploads/1/input.png" "p"
    ⟨[], []⟩ respEnv "keyA" "keyB" (by decide) (by decide) (by decide) (by decide)
    (by decide)

/-- C2 counterexample: in the spec's end-to-end scenario (832-pixel document,
50 x 50 mm box) the resolution passed to the generator is 52832/125 =
422.656, which differs from the claimed value 422.624. -/
theorem resolution_value_cex :
    scenRun.gcodeCall.map GcodeCall.dpi = some (mkRat 52832 125) ∧
    mkRat 52832 125 ≠ mkRat 422624 1000 := by
  exact ⟨by decide, by decide⟩

/-- C2 (amended): the Scale stage passes the generator
`resolution = srcWidth / fittedWidth * 25.4` (so the generator's
pixels-to-millimetres conversion recovers exactly the fitted width), and in
the 832 → 50 x 50 scenario that resolution is 832/50*25.4 = 422.656,
rendered as "422.6560" at the configured 4-decimal precision. -/
theorem resolution_derivation :
    (∀ svgW svgH maxW maxH : ℚ, 0 < svgW → 0 < svgH → 0 < maxW → 0 < maxH →
      qmul (qdiv svgW (scaleToFit svgW svgH maxW maxH).1) (mkRat 254 10) =
        svgW / (scaleToFit svgW svgH maxW maxH).1 * (254 / 10) ∧
      svgW / (qmul (qdiv svgW (scaleToFit svgW svgH maxW maxH).1) (mkRat 254 10)) * (254 / 10) =
        (scaleToFit svgW svgH maxW maxH).1) ∧
    scenRun.gcodeCall = some ⟨"S4 M0", "S4 M100", mkRat 52832 125, "422.6560"⟩ ∧
    qmul (qdiv 832 (scaleToFit 832 832 50 50).1) (mkRat 254 10) = mkRat 52832 125 := by
  refine ⟨?_, by decide, by decide⟩
  intro svgW svgH maxW maxH hw hh hmw hmh
  have hfw : 0 < (scaleToFit svgW svgH maxW maxH).1 := (scaleToFit_pos hw hh hmw hmh).1
  have hmk : (mkRat 254 10 : ℚ) = 254 / 10 := by
    rw [Rat.mkRat_eq_div]
    norm_num
  constructor
  · rw [qmul_eq, qdiv_eq, hmk]
  · rw [qmul_eq, qdiv_eq, hmk]
    have h254 : ((254 : ℚ) / 10) ≠ 0 := by norm_num
    field_simp
    ring

theorem resolution_derivation_witness :
    qmul (qdiv 832 (scaleToFit 832 832 50 50).1) (mkRat 254 10) =
      (832 : ℚ) / (scaleToFit 832 832 50 50).1 * (254 / 10) ∧
    (832 : ℚ) / (qmul (qdiv 832 (scaleToFit 832 832 50 50).1) (mkRat 254 10)) * (254 / 10) =
      (scaleToFit 832 832 50 50).1 :=
  resolution_derivation.1 832 832 50 50 (by norm_num) (by norm_num) (by norm_num) (by norm_num)
